import Mathlib

/-!
Verification of the keyset-cursor pagination engine of the TTDS CW3 demo
search frontend (`src/frontend/src/App.vue`).

The engine lives in the Vue component's methods (`doSearch`,
`ensureCursorForPageEnd`, `prefetchWindow`, `goToPage`) and its `data()`
fields.  This file gives a shallow embedding of that code:

* the component's mutable fields become the `SessState` structure;
* the `/search` HTTP endpoint becomes an abstract `Gateway` function
  from `(size, cursor)` to either a transport error or a JSON response;
* each `async` method becomes a pure state-transformer; fire-and-forget
  background calls (`this.prefetchWindow(...)` without `await`) are
  composed sequentially, which yields exactly the settled state after
  all started work finished (the JS event loop interleaves no other
  session mutation in the scenarios modelled here);
* JS object maps indexed by page number become functions
  `Nat → Option _`; JS truthiness tests on their entries (`null` and
  `undefined` both falsy, arrays always truthy) are mirrored by
  `Option` matching, with a stored JS `null` cursor represented as an
  entry equal to `none`;
* JS numbers carry page numbers, sizes and scores; pages and sizes are
  embedded as `Nat` (the code only ever produces non-negative ones:
  `goToPage` is invoked with `currentPage ± 1` or a rendered button
  number, all ≥ 0), scores as `Int` (the frontend never does arithmetic
  on scores, it only forwards them, so any linearly ordered carrier is
  faithful);
* `query.trim() === ''` is embedded as "every character is whitespace",
  which is the same predicate expressed without `String.trim`;
* `Math.ceil(len / pageSize)` becomes `ceilDiv len pageSize`
  (the page size is one of 5/10/20 in the UI, never 0).
-/

/-- A ranked result item as returned by the gateway
(`doc_id`, `score` are the fields the pagination engine reads). -/
structure Item where
  doc_id : String
  score : Int
deriving DecidableEq, Repr

/-- A keyset cursor `{lastscore, lastid}` as built by
`getEndCursorFromResults`. -/
structure Cursor where
  lastscore : Int
  lastid : String
deriving DecidableEq, Repr

/-- The part of a `/search` JSON response the component reads:
`total_hits`, `took_ms`, `results` (a missing `results` field is
normalised to `[]` by the code's `data.results || []`). -/
structure SearchResponse where
  total_hits : Nat
  took_ms : Nat
  results : List Item
deriving DecidableEq, Repr

/-- The `/search` endpoint: takes the requested `size` and the optional
cursor from the payload (`last_min_bm25_score` / `last_max_rerank_id`),
returns a parsed response or a transport/HTTP failure (the thrown
`Search failed ...` error of `callSearchApi`). -/
def Gateway : Type := Nat → Option Cursor → Except Unit SearchResponse

/-- The component's session-relevant `data()` fields. -/
structure SessState where
  query : String
  pageSize : Nat
  loading : Bool
  prefetching : Bool
  error : String
  results : List Item
  meta : Option (Nat × Nat)
  currentPage : Nat
  windowStart : Nat
  windowEnd : Nat
  pageCache : Nat → Option (List Item)
  pageEndCursor : Nat → Option Cursor
  noMoreAfterPage : Option Nat

/-- Store a fetched page under a page number (`this.pageCache[p] = items`). -/
def updPage (f : Nat → Option (List Item)) (k : Nat) (v : List Item) :
    Nat → Option (List Item) :=
  fun q => if q = k then some v else f q

/-- Store an end cursor under a page number
(`this.pageEndCursor[p] = c`); storing the JS `null` cursor of an empty
page is storing `none`, which is falsy on later reads exactly like an
absent key. -/
def updCursor (f : Nat → Option Cursor) (k : Nat) (v : Option Cursor) :
    Nat → Option Cursor :=
  fun q => if q = k then v else f q

/-- `getEndCursorFromResults`: `null` for an empty list, else the
`(score, doc_id)` of the last item. -/
def getEndCursorFromResults (items : List Item) : Option Cursor :=
  match items.getLast? with
  | none => none
  | some last => some ⟨last.score, last.doc_id⟩

/-- `Math.ceil (a / b)` on naturals (used only with `b > 0`). -/
def ceilDiv (a b : Nat) : Nat := (a + b - 1) / b

/-- `items.slice(i*ps, (i+1)*ps)`. -/
def sliceAt (ps : Nat) (items : List Item) (i : Nat) : List Item :=
  (items.drop (i * ps)).take ps

/-- The error string every failed fetch surfaces (`e?.message`); the
engine only ever tests it for truthiness, so one fixed non-empty string
represents all messages. -/
def fetchErrMsg : String := "Search failed"

/-- JS `!query.trim()`: the query is empty or all-whitespace. -/
def blankQuery (q : String) : Bool :=
  q.data.all fun c => c.isWhitespace

/-- The cache/cursor-filling loop of `ensureCursorForPageEnd`:
`for i in [i0, i0+k)`, page `p = i+1`, stop at an empty slice, and fill
`pageCache[p]` / `pageEndCursor[p]` only where they are currently unset. -/
def backfillFill (ps : Nat) (items : List Item) : Nat → Nat → SessState → SessState
  | _, 0, s => s
  | i, k + 1, s =>
    let slice := sliceAt ps items i
    if slice = [] then s
    else
      let p := i + 1
      let s1 := if s.pageCache p = none then
                  { s with pageCache := updPage s.pageCache p slice } else s
      let s2 := if s1.pageEndCursor p = none then
                  { s1 with pageEndCursor :=
                      updCursor s1.pageEndCursor p (getEndCursorFromResults slice) }
                else s1
      backfillFill ps items (i + 1) k s2

/-- `ensureCursorForPageEnd(pageNum)`: return a cached end cursor, or
backfill by fetching `pageNum * pageSize` items from the start of the
stream and slicing; a transport failure of that fetch propagates as a
thrown error (`Except.error`) with no state mutation. -/
def ensureCursorForPageEnd (g : Gateway) (pageNum : Nat) (s : SessState) :
    Except Unit (SessState × Option Cursor) :=
  if pageNum = 0 then .ok (s, none)
  else if (s.pageEndCursor pageNum).isSome then .ok (s, s.pageEndCursor pageNum)
  else
    match g (pageNum * s.pageSize) none with
    | .error e => .error e
    | .ok data =>
      let items := data.results
      let pages := ceilDiv items.length s.pageSize
      let s1 := backfillFill s.pageSize items 0 pages s
      .ok (s1, s1.pageEndCursor pageNum)

/-- Entry-cursor resolution at the head of `prefetchWindow`:
`start === 1 ? null : await ensureCursorForPageEnd(start - 1)`. -/
def resolveEntry (g : Gateway) (start : Nat) (s : SessState) :
    Except Unit (SessState × Option Cursor) :=
  if start = 1 then .ok (s, none) else ensureCursorForPageEnd g (start - 1) s

/-- The page-filling loop of `prefetchWindow`: `for i in [i0, i0+k)`,
page `p = start+i`, stop at an empty slice, and overwrite
`pageCache[p]` / `pageEndCursor[p]` unconditionally. -/
def prefetchFill (ps : Nat) (start : Nat) (items : List Item) :
    Nat → Nat → SessState → SessState
  | _, 0, s => s
  | i, k + 1, s =>
    let slice := sliceAt ps items i
    if slice = [] then s
    else
      let p := start + i
      let s1 := { s with
        pageCache := updPage s.pageCache p slice,
        pageEndCursor := updCursor s.pageEndCursor p (getEndCursorFromResults slice) }
      prefetchFill ps start items (i + 1) k s1

/-- The page count `prefetchWindow` will slice out of a bulk response:
`Math.min(5, pagesInBlock || 1)` with
`pagesInBlock = Math.ceil(len / pageSize)`. -/
def pagesToShow (len ps : Nat) : Nat :=
  min 5 (if ceilDiv len ps = 0 then 1 else ceilDiv len ps)

/-- `prefetchWindow(centerPage)`: resolve the entry cursor (a failure
there escapes the whole un-awaited call as an unhandled rejection, so
the caller-visible state is unchanged), then bulk-fetch `pageSize * 5`
items, slice them into up to five pages, set the window, and mark
`noMoreAfterPage` when fewer than five pages were produced or the last
one is short; a bulk-fetch failure only records an advisory message in
`error` if none is present. -/
def prefetchWindow (g : Gateway) (centerPage : Nat) (s : SessState) : SessState :=
  let start := max 1 (centerPage - 2)
  match resolveEntry g start s with
  | .error _ => s
  | .ok (s0, cursor) =>
    let s1 := { s0 with prefetching := true }
    match g (s1.pageSize * 5) cursor with
    | .error _ =>
      { s1 with error := if s1.error = "" then fetchErrMsg else s1.error,
                prefetching := false }
    | .ok data =>
      let items := data.results
      let maxPagesToShow := pagesToShow items.length s1.pageSize
      let s2 := prefetchFill s1.pageSize start items 0 maxPagesToShow s1
      let s3 := { s2 with windowStart := start, windowEnd := start + maxPagesToShow - 1 }
      let lastPageSlice := (s3.pageCache s3.windowEnd).getD []
      let s4 := if maxPagesToShow < 5 ∨ lastPageSlice.length < s3.pageSize then
                  { s3 with noMoreAfterPage := some s3.windowEnd }
                else s3
      { s4 with prefetching := false }

/-- The two early-return guards of `goToPage`:
`p < 1`, or `noMoreAfterPage != null && p > noMoreAfterPage`. -/
def navRejected (p : Nat) (s : SessState) : Bool :=
  decide (p = 0) ||
    match s.noMoreAfterPage with
    | some l => decide (l < p)
    | none => false

/-- The body of `goToPage` after its guards: serve a cached page
immediately, else do the synchronous miss fetch (cursor resolution via
`ensureCursorForPageEnd`, then one page of `pageSize`), with the
`catch` overwriting `error` and `finally` clearing `loading`. -/
def goToPageBody (g : Gateway) (p : Nat) (s : SessState) : SessState :=
  match s.pageCache p with
  | some cached => { s with currentPage := p, results := cached }
  | none =>
    let sl := { s with loading := true }
    match (if p = 1 then .ok (sl, none) else ensureCursorForPageEnd g (p - 1) sl) with
    | .error _ => { sl with error := fetchErrMsg, loading := false }
    | .ok (s1, cursor) =>
      match g s1.pageSize cursor with
      | .error _ => { s1 with error := fetchErrMsg, loading := false }
      | .ok data =>
        let items := data.results
        { s1 with
          pageCache := updPage s1.pageCache p items,
          pageEndCursor := updCursor s1.pageEndCursor p (getEndCursorFromResults items),
          currentPage := p,
          results := items,
          loading := false }

/-- `goToPage` up to (and excluding) the trailing background refill:
this is the state the caller observes when the navigation itself has
finished, since `this.prefetchWindow(...)` is not awaited. -/
def goToPageCore (g : Gateway) (p : Nat) (s : SessState) : SessState :=
  if navRejected p s then s else goToPageBody g p s

/-- `goToPage(p)` including the settled effect of the background
`prefetchWindow(this.currentPage)` it triggers on every non-rejected
call. -/
def goToPage (g : Gateway) (p : Nat) (s : SessState) : SessState :=
  if navRejected p s then s
  else
    let s1 := goToPageBody g p s
    prefetchWindow g s1.currentPage s1

/-- `resetPaginationState()`. -/
def resetPaginationState (s : SessState) : SessState :=
  { s with currentPage := 1, windowStart := 1, windowEnd := 1,
           pageCache := fun _ => none, pageEndCursor := fun _ => none,
           noMoreAfterPage := none }

/-- `doSearch()`: a blank query returns before touching anything;
otherwise reset, fetch page 1 synchronously, publish it, and trigger
the background window prefetch (composed after `loading := false`,
which `prefetchWindow` never reads or writes, so the settled state is
identical to the JS interleaving). -/
def doSearch (g : Gateway) (s : SessState) : SessState :=
  if blankQuery s.query then s
  else
    let s0 := { s with error := "", loading := true, prefetching := false,
                       results := [], meta := none }
    let s1 := resetPaginationState s0
    match g s1.pageSize none with
    | .error _ => { s1 with error := fetchErrMsg, loading := false }
    | .ok data =>
      let page1 := data.results
      let s2 := { s1 with
        pageCache := updPage s1.pageCache 1 page1,
        pageEndCursor := updCursor s1.pageEndCursor 1 (getEndCursorFromResults page1),
        results := page1,
        meta := some (data.total_hits, data.took_ms),
        loading := false }
      prefetchWindow g s2.currentPage s2

/-- The `canGoNext` computed property. -/
def canGoNext (s : SessState) : Bool :=
  match s.noMoreAfterPage with
  | some l => decide (s.currentPage < l)
  | none =>
    (s.pageCache (s.currentPage + 1)).isSome ||
      decide (s.windowEnd - s.windowStart + 1 = 5)

/-- The component's initial `data()` values for a given query and page
size (`pageSize` is 10 by default and 5/10/20 via the UI; changing it
restarts the search through the watcher, see `Op.setPageSize`). -/
def initState (q : String) (ps : Nat) : SessState :=
  { query := q, pageSize := ps, loading := false, prefetching := false,
    error := "", results := [], meta := none, currentPage := 1,
    windowStart := 1, windowEnd := 1, pageCache := fun _ => none,
    pageEndCursor := fun _ => none, noMoreAfterPage := none }

/-- The session-mutating entry points: a search submission, a
navigation, editing the query field (`v-model` only), and changing the
page size (whose watcher re-runs `doSearch`, itself a no-op on a blank
query).  Each carries the gateway behaviour in effect at that moment,
so streams may drift between operations (§7 of the design). -/
inductive Op where
  | search (g : Gateway)
  | nav (g : Gateway) (p : Nat)
  | setQuery (q : String)
  | setPageSize (g : Gateway) (ps : Nat)

/-- Apply one entry point to the session state. -/
def applyOp (s : SessState) : Op → SessState
  | .search g => doSearch g s
  | .nav g p => goToPage g p s
  | .setQuery q => { s with query := q }
  | .setPageSize g ps => doSearch g { s with pageSize := ps }

/-- Run a sequence of entry points; `runOps (initState q ps) ops` is the
set of reachable settled session states. -/
def runOps (s : SessState) (ops : List Op) : SessState :=
  ops.foldl applyOp s

/-- Modelled from the spec: the CursorCodec total order (§4.1) — score
descending with ascending `doc_id` tie-break — specialised to the
boundary test "item `it` strictly follows cursor `c`".  The frontend
source contains no such comparison; this definition exists to state
ordering-contract claims against the code's caching behaviour. -/
def strictlyFollows (c : Cursor) (it : Item) : Bool :=
  decide (it.score < c.lastscore) ||
    (decide (it.score = c.lastscore) && decide (c.lastid.data < it.doc_id.data))

/-- A well-behaved gateway over a fixed ranked stream: it returns the
first `size` items that strictly follow the supplied cursor, exactly
the RankingGateway contract of §6. -/
def itemsAfter (cur : Option Cursor) (stream : List Item) : List Item :=
  match cur with
  | none => stream
  | some c => stream.filter fun it => strictlyFollows c it

/-- Build a contract-honouring gateway from a fixed stream. -/
def mkGateway (stream : List Item) : Gateway :=
  fun size cur =>
    .ok { total_hits := stream.length, took_ms := 0,
          results := (itemsAfter cur stream).take size }

/-- A gateway that fails with a transport error exactly on requests of
one given size, and behaves like `g` otherwise. -/
def gwFailAt (g : Gateway) (failSize : Nat) : Gateway :=
  fun size cur => if size = failSize then .error () else g size cur

/-- A concrete strictly descending ranked stream of `n` items:
item `i` has score `1000 - i` and doc id `toString i`. -/
def stream (n : Nat) : List Item :=
  (List.range n).map fun i => { doc_id := toString i, score := (1000 : Int) - i }

/-- A gateway whose transport is down: every request fails. -/
def gwDown : Gateway := fun _ _ => .error ()

/-- A gateway over a stream that has drifted to empty: every request
succeeds with zero results (a legal response per the §6 contract). -/
def gwEmpty : Gateway := fun _ _ => .ok ⟨0, 0, []⟩

/-- An item that strictly follows no non-null cursor of the streams
used here: its score exceeds every stream score, so returning it after
any such cursor is a §7 protocol violation. -/
def badItem : Item := { doc_id := "zzz", score := 99999 }

/-- A misbehaving gateway that answers every request with `badItem`
alone, violating the cursor contract for any non-null cursor. -/
def gwBad : Gateway := fun _ _ => .ok ⟨1, 0, [badItem]⟩

/-- The window well-formedness invariant of §3/§8: the window starts at
a positive page, is non-empty, and spans at most five pages. -/
def windowInv (s : SessState) : Prop :=
  1 ≤ s.windowStart ∧ s.windowStart ≤ s.windowEnd ∧
    s.windowEnd + 1 ≤ s.windowStart + 5

theorem ceilDiv_le {b : Nat} (hb : 0 < b) (a n : Nat) : ceilDiv a b ≤ n ↔ a ≤ n * b := by
  unfold ceilDiv
  rw [Nat.div_le_iff_le_mul_add_pred hb, Nat.mul_comm n b]
  omega

theorem lt_ceilDiv {b : Nat} (hb : 0 < b) (a i : Nat) : i < ceilDiv a b ↔ i * b < a := by
  constructor
  · intro h1
    by_contra h2
    push_neg at h2
    exact absurd ((ceilDiv_le hb a i).2 h2) (Nat.not_le.2 h1)
  · intro h1
    by_contra h2
    push_neg at h2
    exact absurd ((ceilDiv_le hb a i).1 h2) (Nat.not_le.2 h1)

theorem ceilDiv_mul {b : Nat} (hb : 0 < b) (n : Nat) : ceilDiv (n * b) b = n := by
  refine Nat.le_antisymm ((ceilDiv_le hb _ n).2 le_rfl) ?_
  by_contra h
  push_neg at h
  rcases n with _ | m
  · omega
  · have h2 : ceilDiv ((m + 1) * b) b ≤ m := by omega
    have h3 := (ceilDiv_le hb _ m).1 h2
    have h4 := Nat.le_of_mul_le_mul_right h3 hb
    omega

theorem sliceAt_length (ps : Nat) (items : List Item) (i : Nat) :
    (sliceAt ps items i).length = min ps (items.length - i * ps) := by
  simp [sliceAt]

theorem sliceAt_ne_nil {ps : Nat} (hps : 0 < ps) {items : List Item} {i : Nat}
    (h : i * ps < items.length) : sliceAt ps items i ≠ [] := by
  intro hnil
  have hl := congrArg List.length hnil
  rw [sliceAt_length] at hl
  simp at hl
  omega

theorem getEndCursor_isSome {items : List Item} (h : items ≠ []) :
    (getEndCursorFromResults items).isSome := by
  unfold getEndCursorFromResults
  cases hg : items.getLast? with
  | none => exact absurd (List.getLast?_eq_none_iff.1 hg) h
  | some a => rfl

theorem backfillFill_shape (ps : Nat) (items : List Item) :
    ∀ k i s, ∃ pc pec, backfillFill ps items i k s =
      { s with pageCache := pc, pageEndCursor := pec } := by
  intro k
  induction k with
  | zero => intro i s; exact ⟨s.pageCache, s.pageEndCursor, rfl⟩
  | succ k ih =>
    intro i s
    simp only [backfillFill]
    split
    · exact ⟨s.pageCache, s.pageEndCursor, rfl⟩
    · split <;> split <;>
        · obtain ⟨pc, pec, hh⟩ := ih (i + 1) _
          exact ⟨pc, pec, hh⟩

theorem prefetchFill_shape (ps start : Nat) (items : List Item) :
    ∀ k i s, ∃ pc pec, prefetchFill ps start items i k s =
      { s with pageCache := pc, pageEndCursor := pec } := by
  intro k
  induction k with
  | zero => intro i s; exact ⟨s.pageCache, s.pageEndCursor, rfl⟩
  | succ k ih =>
    intro i s
    simp only [prefetchFill]
    split
    · exact ⟨s.pageCache, s.pageEndCursor, rfl⟩
    · obtain ⟨pc, pec, hh⟩ := ih (i + 1) _
      exact ⟨pc, pec, hh⟩

theorem updPage_eq (f : Nat → Option (List Item)) (k : Nat) (v : List Item) :
    updPage f k v k = some v := by
  simp [updPage]

theorem updPage_ne (f : Nat → Option (List Item)) {k q : Nat} (v : List Item)
    (h : q ≠ k) : updPage f k v q = f q := by
  simp [updPage, h]

theorem updPage_isSome (f : Nat → Option (List Item)) (k : Nat) (v : List Item)
    (q : Nat) (h : (f q).isSome) : (updPage f k v q).isSome := by
  unfold updPage
  split
  · rfl
  · exact h

theorem updPage_preserve {f : Nat → Option (List Item)} {k q : Nat} {v w : List Item}
    (hq : f q = some w) (hk : f k = none) : updPage f k v q = some w := by
  unfold updPage
  split
  · next hqk =>
    subst hqk
    rw [hq] at hk
    exact absurd hk (by simp)
  · exact hq

theorem updCursor_eq (f : Nat → Option Cursor) (k : Nat) (v : Option Cursor) :
    updCursor f k v k = v := by
  simp [updCursor]

theorem updCursor_ne (f : Nat → Option Cursor) {k q : Nat} (v : Option Cursor)
    (h : q ≠ k) : updCursor f k v q = f q := by
  simp [updCursor, h]

theorem updCursor_preserve {f : Nat → Option Cursor} {k q : Nat} {v : Option Cursor}
    {c : Cursor} (hq : f q = some c) (hk : f k = none) : updCursor f k v q = some c := by
  unfold updCursor
  split
  · next hqk =>
    subst hqk
    rw [hq] at hk
    exact absurd hk (by simp)
  · exact hq

theorem backfillFill_cache_mono (ps : Nat) (items : List Item) :
    ∀ k i s q v, s.pageCache q = some v →
      (backfillFill ps items i k s).pageCache q = some v := by
  intro k
  induction k with
  | zero => intro i s q v h; exact h
  | succ k ih =>
    intro i s q v h
    simp only [backfillFill]
    split
    · exact h
    · apply ih
      by_cases h1 : s.pageCache (i + 1) = none
      · rw [if_pos h1]
        dsimp only
        by_cases h2 : s.pageEndCursor (i + 1) = none
        · rw [if_pos h2]
          exact updPage_preserve h h1
        · rw [if_neg h2]
          exact updPage_preserve h h1
      · rw [if_neg h1]
        by_cases h2 : s.pageEndCursor (i + 1) = none
        · rw [if_pos h2]
          exact h
        · rw [if_neg h2]
          exact h

theorem backfillFill_cursor_mono (ps : Nat) (items : List Item) :
    ∀ k i s q c, s.pageEndCursor q = some c →
      (backfillFill ps items i k s).pageEndCursor q = some c := by
  intro k
  induction k with
  | zero => intro i s q c h; exact h
  | succ k ih =>
    intro i s q c h
    simp only [backfillFill]
    split
    · exact h
    · apply ih
      by_cases h1 : s.pageCache (i + 1) = none
      · rw [if_pos h1]
        dsimp only
        by_cases h2 : s.pageEndCursor (i + 1) = none
        · rw [if_pos h2]
          exact updCursor_preserve h h2
        · rw [if_neg h2]
          exact h
      · rw [if_neg h1]
        by_cases h2 : s.pageEndCursor (i + 1) = none
        · rw [if_pos h2]
          exact updCursor_preserve h h2
        · rw [if_neg h2]
          exact h

theorem backfillFill_cache_isSome (ps : Nat) (items : List Item) (k i : Nat)
    (s : SessState) (q : Nat) (h : (s.pageCache q).isSome) :
    ((backfillFill ps items i k s).pageCache q).isSome := by
  obtain ⟨v, hv⟩ := Option.isSome_iff_exists.1 h
  rw [backfillFill_cache_mono ps items k i s q v hv]
  rfl

theorem backfillFill_cursor_isSome (ps : Nat) (items : List Item) (k i : Nat)
    (s : SessState) (q : Nat) (h : (s.pageEndCursor q).isSome) :
    ((backfillFill ps items i k s).pageEndCursor q).isSome := by
  obtain ⟨c, hc⟩ := Option.isSome_iff_exists.1 h
  rw [backfillFill_cursor_mono ps items k i s q c hc]
  rfl

theorem backfillFill_cursor_lower (ps : Nat) (items : List Item) :
    ∀ k i s q, q < i + 1 →
      (backfillFill ps items i k s).pageEndCursor q = s.pageEndCursor q := by
  intro k
  induction k with
  | zero => intro i s q _; rfl
  | succ k ih =>
    intro i s q hq
    simp only [backfillFill]
    split
    · rfl
    · rw [ih (i + 1) _ q (by omega)]
      by_cases h1 : s.pageCache (i + 1) = none
      · rw [if_pos h1]
        dsimp only
        by_cases h2 : s.pageEndCursor (i + 1) = none
        · rw [if_pos h2]
          exact updCursor_ne _ _ (by omega)
        · rw [if_neg h2]
      · rw [if_neg h1]
        by_cases h2 : s.pageEndCursor (i + 1) = none
        · rw [if_pos h2]
          exact updCursor_ne _ _ (by omega)
        · rw [if_neg h2]

theorem backfillFill_sets (ps : Nat) (items : List Item) :
    ∀ k i s j, j < k → (∀ jj, jj < k → sliceAt ps items (i + jj) ≠ []) →
      ((backfillFill ps items i k s).pageCache (i + j + 1)).isSome ∧
      ((backfillFill ps items i k s).pageEndCursor (i + j + 1)).isSome := by
  intro k
  induction k with
  | zero => intro i s j hj _; omega
  | succ k ih =>
    intro i s j hj hsl
    have h0 : sliceAt ps items (i + 0) ≠ [] := hsl 0 (by omega)
    rw [Nat.add_zero] at h0
    simp only [backfillFill]
    rw [if_neg h0]
    rcases Nat.eq_zero_or_pos j with hj0 | hjpos
    · subst hj0
      rw [Nat.add_zero]
      constructor
      · apply backfillFill_cache_isSome
        by_cases h1 : s.pageCache (i + 1) = none
        · rw [if_pos h1]
          dsimp only
          by_cases h2 : s.pageEndCursor (i + 1) = none
          · rw [if_pos h2]
            dsimp only
            rw [updPage_eq]
            rfl
          · rw [if_neg h2]
            dsimp only
            rw [updPage_eq]
            rfl
        · rw [if_neg h1]
          by_cases h2 : s.pageEndCursor (i + 1) = none
          · rw [if_pos h2]
            dsimp only
            exact Option.ne_none_iff_isSome.1 h1
          · rw [if_neg h2]
            exact Option.ne_none_iff_isSome.1 h1
      · apply backfillFill_cursor_isSome
        by_cases h1 : s.pageCache (i + 1) = none
        · rw [if_pos h1]
          dsimp only
          by_cases h2 : s.pageEndCursor (i + 1) = none
          · rw [if_pos h2]
            dsimp only
            rw [updCursor_eq]
            exact getEndCursor_isSome h0
          · rw [if_neg h2]
            dsimp only
            exact Option.ne_none_iff_isSome.1 h2
        · rw [if_neg h1]
          by_cases h2 : s.pageEndCursor (i + 1) = none
          · rw [if_pos h2]
            dsimp only
            rw [updCursor_eq]
            exact getEndCursor_isSome h0
          · rw [if_neg h2]
            exact Option.ne_none_iff_isSome.1 h2
    · obtain ⟨j0, rfl⟩ : ∃ j0, j = j0 + 1 := ⟨j - 1, by omega⟩
      have hkey : i + (j0 + 1) + 1 = (i + 1) + j0 + 1 := by omega
      rw [hkey]
      exact ih (i + 1) _ j0 (by omega) fun jj hjj => by
        have := hsl (jj + 1) (by omega)
        rw [show i + (jj + 1) = (i + 1) + jj by omega] at this
        exact this

theorem backfillFill_cursor_at (ps : Nat) (items : List Item) :
    ∀ k i s j, j < k → (∀ jj, jj ≤ j → sliceAt ps items (i + jj) ≠ []) →
      s.pageEndCursor (i + j + 1) = none →
      (backfillFill ps items i k s).pageEndCursor (i + j + 1) =
        getEndCursorFromResults (sliceAt ps items (i + j)) := by
  intro k
  induction k with
  | zero => intro i s j hj _ _; omega
  | succ k ih =>
    intro i s j hj hsl hnone
    have h0 : sliceAt ps items (i + 0) ≠ [] := hsl 0 (by omega)
    rw [Nat.add_zero] at h0
    simp only [backfillFill]
    rw [if_neg h0]
    rcases Nat.eq_zero_or_pos j with hj0 | hjpos
    · subst hj0
      simp only [Nat.add_zero] at hnone ⊢
      rw [backfillFill_cursor_lower ps items k (i + 1) _ (i + 1) (by omega)]
      by_cases h1 : s.pageCache (i + 1) = none
      · rw [if_pos h1]
        dsimp only
        rw [if_pos hnone]
        dsimp only
        rw [updCursor_eq]
      · rw [if_neg h1]
        rw [if_pos hnone]
        dsimp only
        rw [updCursor_eq]
    · obtain ⟨j0, rfl⟩ : ∃ j0, j = j0 + 1 := ⟨j - 1, by omega⟩
      have hkey : i + (j0 + 1) + 1 = (i + 1) + j0 + 1 := by omega
      have hkey2 : i + (j0 + 1) = (i + 1) + j0 := by omega
      rw [hkey, hkey2]
      have hsl1 : ∀ jj, jj ≤ j0 → sliceAt ps items ((i + 1) + jj) ≠ [] := fun jj hjj => by
        have := hsl (jj + 1) (by omega)
        rw [show i + (jj + 1) = (i + 1) + jj by omega] at this
        exact this
      apply ih (i + 1) _ j0 (by omega) hsl1
      by_cases h1 : s.pageCache (i + 1) = none
      · rw [if_pos h1]
        dsimp only
        by_cases h2 : s.pageEndCursor (i + 1) = none
        · rw [if_pos h2]
          dsimp only
          rw [updCursor_ne _ _ (by omega)]
          rw [hkey] at hnone
          exact hnone
        · rw [if_neg h2]
          dsimp only
          rw [hkey] at hnone
          exact hnone
      · rw [if_neg h1]
        by_cases h2 : s.pageEndCursor (i + 1) = none
        · rw [if_pos h2]
          dsimp only
          rw [updCursor_ne _ _ (by omega)]
          rw [hkey] at hnone
          exact hnone
        · rw [if_neg h2]
          rw [hkey] at hnone
          exact hnone

theorem prefetchFill_cache_isSome (ps start : Nat) (items : List Item) :
    ∀ k i s q, ((s.pageCache q).isSome) →
      ((prefetchFill ps start items i k s).pageCache q).isSome := by
  intro k
  induction k with
  | zero => intro i s q h; exact h
  | succ k ih =>
    intro i s q h
    simp only [prefetchFill]
    split
    · exact h
    · exact ih (i + 1) _ q (updPage_isSome _ _ _ _ h)

theorem prefetchFill_cache_lower (ps start : Nat) (items : List Item) :
    ∀ k i s q, q < start + i →
      (prefetchFill ps start items i k s).pageCache q = s.pageCache q := by
  intro k
  induction k with
  | zero => intro i s q _; rfl
  | succ k ih =>
    intro i s q hq
    simp only [prefetchFill]
    split
    · rfl
    · rw [ih (i + 1) _ q (by omega)]
      dsimp only
      exact updPage_ne _ _ (by omega)

theorem prefetchFill_sets (ps start : Nat) (items : List Item) :
    ∀ k i s j, j < k → (∀ jj, jj < k → sliceAt ps items (i + jj) ≠ []) →
      ((prefetchFill ps start items i k s).pageCache (start + i + j)).isSome := by
  intro k
  induction k with
  | zero => intro i s j hj _; omega
  | succ k ih =>
    intro i s j hj hsl
    have h0 : sliceAt ps items (i + 0) ≠ [] := hsl 0 (by omega)
    rw [Nat.add_zero] at h0
    simp only [prefetchFill]
    rw [if_neg h0]
    rcases Nat.eq_zero_or_pos j with hj0 | hjpos
    · subst hj0
      simp only [Nat.add_zero]
      apply prefetchFill_cache_isSome
      dsimp only
      rw [updPage_eq]
      rfl
    · obtain ⟨j0, rfl⟩ : ∃ j0, j = j0 + 1 := ⟨j - 1, by omega⟩
      have hkey : start + i + (j0 + 1) = start + (i + 1) + j0 := by omega
      rw [hkey]
      exact ih (i + 1) _ j0 (by omega) fun jj hjj => by
        have := hsl (jj + 1) (by omega)
        rw [show i + (jj + 1) = (i + 1) + jj by omega] at this
        exact this

theorem prefetchFill_at (ps start : Nat) (items : List Item) :
    ∀ k i s j, j < k → (∀ jj, jj ≤ j → sliceAt ps items (i + jj) ≠ []) →
      (prefetchFill ps start items i k s).pageCache (start + i + j) =
        some (sliceAt ps items (i + j)) := by
  intro k
  induction k with
  | zero => intro i s j hj _; omega
  | succ k ih =>
    intro i s j hj hsl
    have h0 : sliceAt ps items (i + 0) ≠ [] := hsl 0 (by omega)
    rw [Nat.add_zero] at h0
    simp only [prefetchFill]
    rw [if_neg h0]
    rcases Nat.eq_zero_or_pos j with hj0 | hjpos
    · subst hj0
      simp only [Nat.add_zero]
      rw [prefetchFill_cache_lower ps start items k (i + 1) _ (start + i) (by omega)]
      dsimp only
      rw [updPage_eq]
    · obtain ⟨j0, rfl⟩ : ∃ j0, j = j0 + 1 := ⟨j - 1, by omega⟩
      have hkey : start + i + (j0 + 1) = start + (i + 1) + j0 := by omega
      have hkey2 : i + (j0 + 1) = (i + 1) + j0 := by omega
      rw [hkey, hkey2]
      exact ih (i + 1) _ j0 (by omega) fun jj hjj => by
        have := hsl (jj + 1) (by omega)
        rw [show i + (jj + 1) = (i + 1) + jj by omega] at this
        exact this

theorem pagesToShow_pos (len ps : Nat) : 1 ≤ pagesToShow len ps := by
  unfold pagesToShow
  split <;> omega

theorem pagesToShow_le_five (len ps : Nat) : pagesToShow len ps ≤ 5 := by
  unfold pagesToShow
  omega

theorem pagesToShow_le_pib {len ps : Nat} (h : ceilDiv len ps ≠ 0) :
    pagesToShow len ps ≤ ceilDiv len ps := by
  unfold pagesToShow
  rw [if_neg h]
  omega

theorem pagesToShow_ge {len ps m : Nat} (h : m ≤ ceilDiv len ps) (hm : m ≤ 5) :
    m ≤ pagesToShow len ps := by
  unfold pagesToShow
  split <;> omega

theorem ensure_ok_shape {g : Gateway} {n : Nat} {s s1 : SessState} {cur : Option Cursor}
    (h : ensureCursorForPageEnd g n s = .ok (s1, cur)) :
    ∃ pc pec, s1 = { s with pageCache := pc, pageEndCursor := pec } := by
  unfold ensureCursorForPageEnd at h
  split at h
  · simp only [Except.ok.injEq, Prod.mk.injEq] at h
    obtain ⟨rfl, -⟩ := h
    exact ⟨s.pageCache, s.pageEndCursor, rfl⟩
  · split at h
    · simp only [Except.ok.injEq, Prod.mk.injEq] at h
      obtain ⟨rfl, -⟩ := h
      exact ⟨s.pageCache, s.pageEndCursor, rfl⟩
    · split at h
      · exact absurd h (by simp)
      · simp only [Except.ok.injEq, Prod.mk.injEq] at h
        obtain ⟨rfl, -⟩ := h
        exact backfillFill_shape _ _ _ _ _

theorem ensure_ok_cache_mono {g : Gateway} {n : Nat} {s s1 : SessState}
    {cur : Option Cursor} (h : ensureCursorForPageEnd g n s = .ok (s1, cur))
    {q : Nat} {v : List Item} (hq : s.pageCache q = some v) :
    s1.pageCache q = some v := by
  unfold ensureCursorForPageEnd at h
  split at h
  · simp only [Except.ok.injEq, Prod.mk.injEq] at h
    obtain ⟨rfl, -⟩ := h
    exact hq
  · split at h
    · simp only [Except.ok.injEq, Prod.mk.injEq] at h
      obtain ⟨rfl, -⟩ := h
      exact hq
    · split at h
      · exact absurd h (by simp)
      · simp only [Except.ok.injEq, Prod.mk.injEq] at h
        obtain ⟨rfl, -⟩ := h
        exact backfillFill_cache_mono _ _ _ _ _ _ _ hq

theorem ensure_ok_cursor_mono {g : Gateway} {n : Nat} {s s1 : SessState}
    {cur : Option Cursor} (h : ensureCursorForPageEnd g n s = .ok (s1, cur))
    {q : Nat} {c : Cursor} (hq : s.pageEndCursor q = some c) :
    s1.pageEndCursor q = some c := by
  unfold ensureCursorForPageEnd at h
  split at h
  · simp only [Except.ok.injEq, Prod.mk.injEq] at h
    obtain ⟨rfl, -⟩ := h
    exact hq
  · split at h
    · simp only [Except.ok.injEq, Prod.mk.injEq] at h
      obtain ⟨rfl, -⟩ := h
      exact hq
    · split at h
      · exact absurd h (by simp)
      · simp only [Except.ok.injEq, Prod.mk.injEq] at h
        obtain ⟨rfl, -⟩ := h
        exact backfillFill_cursor_mono _ _ _ _ _ _ _ hq

theorem ensure_backfill_spec {g : Gateway} {n : Nat} {s : SessState}
    {data : SearchResponse} (hn : n ≠ 0) (hnc : s.pageEndCursor n = none)
    (hf : g (n * s.pageSize) none = .ok data) :
    ensureCursorForPageEnd g n s = .ok
      (backfillFill s.pageSize data.results 0 (ceilDiv data.results.length s.pageSize) s,
       (backfillFill s.pageSize data.results 0
         (ceilDiv data.results.length s.pageSize) s).pageEndCursor n) := by
  unfold ensureCursorForPageEnd
  rw [if_neg hn, if_neg (by simp [hnc]), hf]

theorem resolveEntry_ok_shape {g : Gateway} {st : Nat} {s s1 : SessState}
    {cur : Option Cursor} (h : resolveEntry g st s = .ok (s1, cur)) :
    ∃ pc pec, s1 = { s with pageCache := pc, pageEndCursor := pec } := by
  unfold resolveEntry at h
  split at h
  · simp only [Except.ok.injEq, Prod.mk.injEq] at h
    obtain ⟨rfl, -⟩ := h
    exact ⟨s.pageCache, s.pageEndCursor, rfl⟩
  · exact ensure_ok_shape h

theorem resolveEntry_ok_cache_mono {g : Gateway} {st : Nat} {s s1 : SessState}
    {cur : Option Cursor} (h : resolveEntry g st s = .ok (s1, cur))
    {q : Nat} {v : List Item} (hq : s.pageCache q = some v) :
    s1.pageCache q = some v := by
  unfold resolveEntry at h
  split at h
  · simp only [Except.ok.injEq, Prod.mk.injEq] at h
    obtain ⟨rfl, -⟩ := h
    exact hq
  · exact ensure_ok_cache_mono h hq

theorem prefetchWindow_resolveFail {g : Gateway} {c : Nat} {s : SessState} {e : Unit}
    (h : resolveEntry g (max 1 (c - 2)) s = .error e) :
    prefetchWindow g c s = s := by
  simp only [prefetchWindow, h]

theorem prefetchWindow_bulkFail {g : Gateway} {c : Nat} {s s1 : SessState}
    {cur : Option Cursor} {e : Unit}
    (hre : resolveEntry g (max 1 (c - 2)) s = .ok (s1, cur))
    (hbk : g (s1.pageSize * 5) cur = .error e) :
    prefetchWindow g c s =
      { s1 with error := if s1.error = "" then fetchErrMsg else s1.error,
                prefetching := false } := by
  simp only [prefetchWindow, hre]
  simp only [hbk]

theorem prefetchWindow_ok_eq {g : Gateway} {c : Nat} {s s1 : SessState}
    {cur : Option Cursor} {data : SearchResponse}
    (hre : resolveEntry g (max 1 (c - 2)) s = .ok (s1, cur))
    (hbk : g (s1.pageSize * 5) cur = .ok data) :
    prefetchWindow g c s =
      (let start := max 1 (c - 2)
       let mps := pagesToShow data.results.length s1.pageSize
       let s2 := prefetchFill s1.pageSize start data.results 0 mps
                   { s1 with prefetching := true }
       if mps < 5 ∨ ((s2.pageCache (start + mps - 1)).getD []).length < s2.pageSize then
         { s2 with windowStart := start, windowEnd := start + mps - 1,
                   noMoreAfterPage := some (start + mps - 1), prefetching := false }
       else
         { s2 with windowStart := start, windowEnd := start + mps - 1,
                   prefetching := false }) := by
  simp only [prefetchWindow, hre]
  simp only [hbk]
  split <;> rfl

theorem prefetchWindow_ok_fields {g : Gateway} {c : Nat} {s s1 : SessState}
    {cur : Option Cursor} {data : SearchResponse}
    (hre : resolveEntry g (max 1 (c - 2)) s = .ok (s1, cur))
    (hbk : g (s1.pageSize * 5) cur = .ok data) :
    (prefetchWindow g c s).windowStart = max 1 (c - 2) ∧
    (prefetchWindow g c s).windowEnd =
      max 1 (c - 2) + pagesToShow data.results.length s1.pageSize - 1 ∧
    (prefetchWindow g c s).currentPage = s.currentPage ∧
    (prefetchWindow g c s).pageCache =
      (prefetchFill s1.pageSize (max 1 (c - 2)) data.results 0
        (pagesToShow data.results.length s1.pageSize)
        { s1 with prefetching := true }).pageCache := by
  obtain ⟨pc, pec, hs1⟩ := resolveEntry_ok_shape hre
  have hs2cur : (prefetchFill s1.pageSize (max 1 (c - 2)) data.results 0
      (pagesToShow data.results.length s1.pageSize)
      { s1 with prefetching := true }).currentPage = s.currentPage := by
    obtain ⟨pc2, pec2, hs2⟩ := prefetchFill_shape s1.pageSize (max 1 (c - 2))
      data.results (pagesToShow data.results.length s1.pageSize) 0
      { s1 with prefetching := true }
    rw [hs2]
    show s1.currentPage = s.currentPage
    rw [hs1]
  rw [prefetchWindow_ok_eq hre hbk]
  dsimp only
  split <;> exact ⟨rfl, rfl, hs2cur, rfl⟩

theorem prefetchWindow_ok_noMore_set {g : Gateway} {c : Nat} {s s1 : SessState}
    {cur : Option Cursor} {data : SearchResponse}
    (hre : resolveEntry g (max 1 (c - 2)) s = .ok (s1, cur))
    (hbk : g (s1.pageSize * 5) cur = .ok data)
    (hcond : pagesToShow data.results.length s1.pageSize < 5 ∨
      (((prefetchFill s1.pageSize (max 1 (c - 2)) data.results 0
          (pagesToShow data.results.length s1.pageSize)
          { s1 with prefetching := true }).pageCache
            (max 1 (c - 2) + pagesToShow data.results.length s1.pageSize - 1)).getD
          []).length < s1.pageSize) :
    (prefetchWindow g c s).noMoreAfterPage =
      some (max 1 (c - 2) + pagesToShow data.results.length s1.pageSize - 1) := by
  have hps : (prefetchFill s1.pageSize (max 1 (c - 2)) data.results 0
      (pagesToShow data.results.length s1.pageSize)
      { s1 with prefetching := true }).pageSize = s1.pageSize := by
    obtain ⟨pc2, pec2, hs2⟩ := prefetchFill_shape s1.pageSize (max 1 (c - 2))
      data.results (pagesToShow data.results.length s1.pageSize) 0
      { s1 with prefetching := true }
    rw [hs2]
  rw [prefetchWindow_ok_eq hre hbk]
  dsimp only
  rw [hps]
  rw [if_pos hcond]

theorem goToPageBody_window (g : Gateway) (p : Nat) (s : SessState) :
    (goToPageBody g p s).windowStart = s.windowStart ∧
    (goToPageBody g p s).windowEnd = s.windowEnd := by
  unfold goToPageBody
  split
  · exact ⟨rfl, rfl⟩
  · dsimp only
    by_cases hp : p = 1
    · rw [if_pos hp]
      dsimp only
      split
      · exact ⟨rfl, rfl⟩
      · exact ⟨rfl, rfl⟩
    · rw [if_neg hp]
      cases heq : ensureCursorForPageEnd g (p - 1) { s with loading := true } with
      | error e =>
        exact ⟨rfl, rfl⟩
      | ok pr =>
        obtain ⟨s1, cursor⟩ := pr
        dsimp only
        obtain ⟨pc, pec, rfl⟩ := ensure_ok_shape heq
        split
        · exact ⟨rfl, rfl⟩
        · exact ⟨rfl, rfl⟩

theorem windowInv_prefetchWindow {g : Gateway} {c : Nat} {s : SessState}
    (h : windowInv s) : windowInv (prefetchWindow g c s) := by
  cases hre : resolveEntry g (max 1 (c - 2)) s with
  | error e =>
    rw [prefetchWindow_resolveFail hre]
    exact h
  | ok pr =>
    obtain ⟨s1, cur⟩ := pr
    cases hbk : g (s1.pageSize * 5) cur with
    | error e =>
      rw [prefetchWindow_bulkFail hre hbk]
      obtain ⟨pc, pec, rfl⟩ := resolveEntry_ok_shape hre
      exact h
    | ok data =>
      rw [prefetchWindow_ok_eq hre hbk]
      dsimp only
      have h1 := pagesToShow_pos data.results.length s1.pageSize
      have h5 := pagesToShow_le_five data.results.length s1.pageSize
      unfold windowInv
      split <;> dsimp only <;> omega

theorem windowInv_goToPage {g : Gateway} {p : Nat} {s : SessState}
    (h : windowInv s) : windowInv (goToPage g p s) := by
  unfold goToPage
  split
  · exact h
  · apply windowInv_prefetchWindow
    have hw := goToPageBody_window g p s
    unfold windowInv
    rw [hw.1, hw.2]
    exact h

theorem windowInv_doSearch {g : Gateway} {s : SessState}
    (h : windowInv s) : windowInv (doSearch g s) := by
  unfold doSearch
  split
  · exact h
  · dsimp only
    split
    · unfold windowInv
      dsimp only [resetPaginationState]
      omega
    · apply windowInv_prefetchWindow
      unfold windowInv
      dsimp only [resetPaginationState]
      omega

theorem windowInv_applyOp {s : SessState} (op : Op) (h : windowInv s) :
    windowInv (applyOp s op) := by
  cases op with
  | search g => exact windowInv_doSearch h
  | nav g p => exact windowInv_goToPage h
  | setQuery q => exact h
  | setPageSize g ps => exact windowInv_doSearch h

theorem windowInv_runOps (ops : List Op) : ∀ {s : SessState}, windowInv s →
    windowInv (runOps s ops) := by
  induction ops with
  | nil => intro s h; exact h
  | cons op rest ih => intro s h; exact ih (windowInv_applyOp op h)

/-- C3: `goToPage` rejects a target page below 1 (page 0 in the
reachable domain) or beyond a set `noMoreAfterPage` as a complete
no-op: the state — current page, rendered results, both caches, window
bounds and `noMoreAfterPage` — is returned unchanged, and since the
result is the same for every gateway, no fetch is issued. -/
theorem claimC3_nav_guard (g : Gateway) (p : Nat) (s : SessState)
    (h : p = 0 ∨ ∃ l, s.noMoreAfterPage = some l ∧ l < p) :
    goToPage g p s = s := by
  have hr : navRejected p s = true := by
    unfold navRejected
    rcases h with rfl | ⟨l, hl, hlt⟩
    · simp
    · rw [hl]
      simp [hlt]
  simp [goToPage, hr]

/-- Witness for C3: rejecting a jump to page 3 when `noMoreAfterPage`
is 2 returns the state unchanged. -/
theorem claimC3_nav_guard_witness :
    goToPage gwDown 3 { initState "q" 5 with noMoreAfterPage := some 2 } =
      { initState "q" 5 with noMoreAfterPage := some 2 } :=
  claimC3_nav_guard gwDown 3 _ (Or.inr ⟨2, rfl, by omega⟩)

/-- C10: `doSearch` on a blank (empty or all-whitespace) query returns
before touching any state and before any network call: the result is
the unmodified state for every gateway. -/
theorem claimC10_blank_search (g : Gateway) (s : SessState)
    (h : blankQuery s.query = true) : doSearch g s = s := by
  simp [doSearch, h]

/-- Witness for C10: a whitespace-only query is a no-op even with the
gateway down. -/
theorem claimC10_blank_search_witness :
    doSearch gwDown (initState "   " 10) = initState "   " 10 :=
  claimC10_blank_search gwDown (initState "   " 10) (by decide)

/-- C5: in every reachable session state the window starts at a
positive page and spans at most five pages. -/
theorem claimC5_window_bound (q : String) (ps : Nat) (ops : List Op) :
    1 ≤ (runOps (initState q ps) ops).windowStart ∧
    (runOps (initState q ps) ops).windowEnd -
        (runOps (initState q ps) ops).windowStart + 1 ≤ 5 := by
  obtain ⟨h1, h2, h3⟩ := windowInv_runOps ops (s := initState q ps)
    (by unfold windowInv initState; dsimp only; omega)
  exact ⟨h1, by omega⟩

/-- C1 counterexample: after a successful search over a 30-item stream,
a navigation to page 9 triggers a background refill whose cursor
backfill fetch (size 30) fails with a transport error; the refill dies
as an unhandled rejection and no advisory notice is surfaced — the
session's `error` field is still empty — contradicting the claim that
every failed prefetch/backfill surfaces a non-fatal notice. -/
theorem claimC1_counterexample :
    (fun size cur => if size = 30 then Except.error () else
      mkGateway (stream 10) size cur : Gateway) 30 none = .error () ∧
    (runOps (initState "q" 5)
      [Op.search (mkGateway (stream 30)),
       Op.nav (fun size cur => if size = 30 then Except.error () else
         mkGateway (stream 10) size cur) 9]).error = "" ∧
    (runOps (initState "q" 5)
      [Op.search (mkGateway (stream 30)),
       Op.nav (fun size cur => if size = 30 then Except.error () else
         mkGateway (stream 10) size cur) 9]).currentPage = 9 ∧
    (runOps (initState "q" 5)
      [Op.search (mkGateway (stream 30)),
       Op.nav (fun size cur => if size = 30 then Except.error () else
         mkGateway (stream 10) size cur) 9]).windowEnd = 5 :=
  ⟨rfl, by decide, by decide, by decide⟩

/-- C1 (amended): a failed background refill never mutates
`currentPage`, the window, or any cached page — but the advisory notice
is only surfaced when the bulk window fetch itself fails; when the
cursor backfill inside the refill fails, the un-awaited call dies as an
unhandled rejection and the state (including `error`) is returned
entirely unchanged, so no notice reaches the caller. -/
theorem claimC1_amended (g : Gateway) (c : Nat) (s : SessState) :
    (∀ e, resolveEntry g (max 1 (c - 2)) s = .error e → prefetchWindow g c s = s) ∧
    (∀ s1 cur e, resolveEntry g (max 1 (c - 2)) s = .ok (s1, cur) →
      g (s1.pageSize * 5) cur = .error e →
      (prefetchWindow g c s).currentPage = s.currentPage ∧
      (prefetchWindow g c s).windowStart = s.windowStart ∧
      (prefetchWindow g c s).windowEnd = s.windowEnd ∧
      (prefetchWindow g c s).error ≠ "" ∧
      (∀ q v, s.pageCache q = some v → (prefetchWindow g c s).pageCache q = some v)) := by
  constructor
  · intro e h
    exact prefetchWindow_resolveFail h
  · intro s1 cur e hre hbk
    rw [prefetchWindow_bulkFail hre hbk]
    obtain ⟨pc, pec, hs1⟩ := resolveEntry_ok_shape hre
    refine ⟨?_, ?_, ?_, ?_, ?_⟩
    · rw [hs1]
    · rw [hs1]
    · rw [hs1]
    · show (if s1.error = "" then fetchErrMsg else s1.error) ≠ ""
      split
      · decide
      · next hne => exact hne
    · intro q v hq
      exact resolveEntry_ok_cache_mono hre hq

/-- Witness for C1 (amended): with the gateway down, a refill centred
at page 9 whose backfill fails leaves the fresh session state
untouched, and a refill centred at page 1 whose bulk fetch fails
surfaces a non-empty error. -/
theorem claimC1_amended_witness :
    prefetchWindow gwDown 9 (initState "q" 5) = initState "q" 5 ∧
    (prefetchWindow gwDown 1 (initState "q" 5)).error ≠ "" :=
  ⟨(claimC1_amended gwDown 9 (initState "q" 5)).1 () rfl,
   ((claimC1_amended gwDown 1 (initState "q" 5)).2 (initState "q" 5) none ()
     rfl rfl).2.2.2.1⟩

/-- C2 counterexample: a search over an 8-item stream (page size 5)
sets `noMoreAfterPage := 2`; after the stream drifts to 18 items, a
plain navigation to the cached page 2 triggers a refill that completes
and overwrites the sentinel with the larger value 4 — so it is not
write-once and the smallest boundary does not win. -/
theorem claimC2_counterexample :
    (runOps (initState "q" 5)
      [Op.search (mkGateway (stream 8))]).noMoreAfterPage = some 2 ∧
    (runOps (initState "q" 5)
      [Op.search (mkGateway (stream 8)),
       Op.nav (mkGateway (stream 18)) 2]).noMoreAfterPage = some 4 :=
  ⟨by decide, by decide⟩

/-- C2 (amended): `noMoreAfterPage` is a plain assignment, not a
write-once sentinel: any completed refill that produces fewer than five
pages sets it to that refill's `windowEnd` unconditionally, whatever
value (larger or smaller) it held before. -/
theorem claimC2_amended {g : Gateway} {c : Nat} {s s1 : SessState}
    {cur : Option Cursor} {data : SearchResponse}
    (hps : 0 < s1.pageSize)
    (hre : resolveEntry g (max 1 (c - 2)) s = .ok (s1, cur))
    (hbk : g (s1.pageSize * 5) cur = .ok data)
    (hlen : data.results.length ≤ 4 * s1.pageSize) :
    (prefetchWindow g c s).noMoreAfterPage =
      some ((prefetchWindow g c s).windowEnd) := by
  have hmps : pagesToShow data.results.length s1.pageSize < 5 := by
    have hle : ceilDiv data.results.length s1.pageSize ≤ 4 :=
      (ceilDiv_le hps _ 4).2 hlen
    by_cases h0 : ceilDiv data.results.length s1.pageSize = 0
    · unfold pagesToShow
      rw [if_pos h0]
      omega
    · have h2 := pagesToShow_le_pib h0
      omega
  have hfields := prefetchWindow_ok_fields hre hbk
  rw [hfields.2.1]
  exact prefetchWindow_ok_noMore_set hre hbk (Or.inl hmps)

/-- Witness for C2 (amended): a refill over an 18-item stream at page
size 5 overwrites a previously set `noMoreAfterPage = 1` with the new
window end 4. -/
theorem claimC2_amended_witness :
    ({ initState "q" 5 with noMoreAfterPage := some 1 } : SessState).noMoreAfterPage =
      some 1 ∧
    (prefetchWindow (mkGateway (stream 18)) 1
        { initState "q" 5 with noMoreAfterPage := some 1 }).noMoreAfterPage =
      some ((prefetchWindow (mkGateway (stream 18)) 1
        { initState "q" 5 with noMoreAfterPage := some 1 }).windowEnd) ∧
    (prefetchWindow (mkGateway (stream 18)) 1
        { initState "q" 5 with noMoreAfterPage := some 1 }).windowEnd = 4 :=
  ⟨rfl, claimC2_amended (by decide) rfl rfl (by decide), by decide⟩

/-- C4 counterexample: over a 30-item stream the first window [1,5] is
full, so `noMoreAfterPage` stays unset; the stream drifts to 28 items
and a navigation to page 6 fetches a short page (3 < 5 items) through
the foreground miss path, which never sets `noMoreAfterPage`, and the
follow-up refill fails — so the sentinel remains `none` and a further
navigation to page 7, beyond the short page, succeeds. -/
theorem claimC4_counterexample :
    (runOps (initState "q" 5)
      [Op.search (mkGateway (stream 30)),
       Op.nav (gwFailAt (mkGateway (stream 28)) 25) 6]).noMoreAfterPage = none ∧
    (((runOps (initState "q" 5)
      [Op.search (mkGateway (stream 30)),
       Op.nav (gwFailAt (mkGateway (stream 28)) 25) 6]).pageCache 6).getD []).length = 3 ∧
    (runOps (initState "q" 5)
      [Op.search (mkGateway (stream 30)),
       Op.nav (gwFailAt (mkGateway (stream 28)) 25) 6]).pageSize = 5 ∧
    (runOps (initState "q" 5)
      [Op.search (mkGateway (stream 30)),
       Op.nav (gwFailAt (mkGateway (stream 28)) 25) 6,
       Op.nav (gwFailAt (mkGateway (stream 28)) 25) 7]).currentPage = 7 :=
  ⟨by decide, by decide, by decide, by decide⟩

/-- C4 (amended): a short page observed by a *completed refill* as its
last produced page does set `noMoreAfterPage` to that page's number
(the refill's window end); the original claim fails only for short
pages fetched by the foreground miss path, which sets no sentinel
itself and relies on the follow-up refill completing. -/
theorem claimC4_amended {g : Gateway} {c : Nat} {s s1 : SessState}
    {cur : Option Cursor} {data : SearchResponse}
    (hps : 0 < s1.pageSize)
    (hre : resolveEntry g (max 1 (c - 2)) s = .ok (s1, cur))
    (hbk : g (s1.pageSize * 5) cur = .ok data)
    (hlo : 4 * s1.pageSize < data.results.length)
    (hhi : data.results.length < 5 * s1.pageSize) :
    (prefetchWindow g c s).noMoreAfterPage =
      some ((prefetchWindow g c s).windowEnd) ∧
    (((prefetchWindow g c s).pageCache
        ((prefetchWindow g c s).windowEnd)).getD []).length < s1.pageSize := by
  have hpib : ceilDiv data.results.length s1.pageSize = 5 := by
    have h1 : 4 < ceilDiv data.results.length s1.pageSize :=
      (lt_ceilDiv hps data.results.length 4).2 hlo
    have h2 : ceilDiv data.results.length s1.pageSize ≤ 5 :=
      (ceilDiv_le hps _ 5).2 (by omega)
    omega
  have hmps : pagesToShow data.results.length s1.pageSize = 5 := by
    unfold pagesToShow
    rw [hpib]
    decide
  have hslice : ∀ jj, jj ≤ 4 → sliceAt s1.pageSize data.results jj ≠ [] := by
    intro jj hjj
    apply sliceAt_ne_nil hps
    have hm : jj * s1.pageSize ≤ 4 * s1.pageSize := Nat.mul_le_mul_right _ hjj
    omega
  have hfields := prefetchWindow_ok_fields hre hbk
  have hfill : (prefetchFill s1.pageSize (max 1 (c - 2)) data.results 0
      (pagesToShow data.results.length s1.pageSize)
      { s1 with prefetching := true }).pageCache
      (max 1 (c - 2) + pagesToShow data.results.length s1.pageSize - 1) =
      some (sliceAt s1.pageSize data.results 4) := by
    rw [hmps]
    have hidx : max 1 (c - 2) + 5 - 1 = max 1 (c - 2) + 0 + 4 := by omega
    rw [hidx]
    have h5 := prefetchFill_at s1.pageSize (max 1 (c - 2)) data.results 5 0
      { s1 with prefetching := true } 4 (by omega)
      (fun jj hjj => by simpa using hslice jj (by omega))
    simpa using h5
  have hlast : (sliceAt s1.pageSize data.results 4).length < s1.pageSize := by
    rw [sliceAt_length]
    omega
  have hnm : (prefetchWindow g c s).noMoreAfterPage =
      some (max 1 (c - 2) + pagesToShow data.results.length s1.pageSize - 1) := by
    apply prefetchWindow_ok_noMore_set hre hbk
    refine Or.inr ?_
    rw [hfill]
    simpa using hlast
  constructor
  · rw [hnm, hfields.2.1]
  · rw [hfields.2.1, hfields.2.2.2, hfill]
    simpa using hlast

/-- Witness for C4 (amended): a refill over a 23-item stream at page
size 5 produces five pages with a short (3-item) last page and marks
its window end as the known last page. -/
theorem claimC4_amended_witness :
    (prefetchWindow (mkGateway (stream 23)) 1 (initState "q" 5)).noMoreAfterPage =
      some ((prefetchWindow (mkGateway (stream 23)) 1 (initState "q" 5)).windowEnd) ∧
    (((prefetchWindow (mkGateway (stream 23)) 1 (initState "q" 5)).pageCache
        ((prefetchWindow (mkGateway (stream 23)) 1 (initState "q" 5)).windowEnd)).getD
      []).length < 5 :=
  claimC4_amended (g := mkGateway (stream 23)) (c := 1) (s := initState "q" 5)
    (by decide) rfl rfl (by decide) (by decide)

/-- C7 counterexample: after a search over a 30-item stream, navigating
to the cached page 4 triggers a refill that supplies the cached page-1
end cursor `(996, "4")`; a misbehaving gateway answers with an item that
does not strictly follow that cursor, and the engine silently caches it
as page 2 — no integrity check exists. -/
theorem claimC7_counterexample :
    (runOps (initState "q" 5)
      [Op.search (mkGateway (stream 30))]).pageEndCursor 1 = some ⟨996, "4"⟩ ∧
    strictlyFollows ⟨996, "4"⟩ badItem = false ∧
    (runOps (initState "q" 5)
      [Op.search (mkGateway (stream 30)), Op.nav gwBad 4]).pageCache 2 =
      some [badItem] :=
  ⟨by decide, by decide, by decide⟩

/-- C7 (amended): the engine performs no ordering validation at all — a
successful bulk fetch is sliced and stored in the page cache
unconditionally, whatever its items' relation to the supplied cursor;
in particular a protocol-violating response is silently cached. -/
theorem claimC7_amended {g : Gateway} {c : Nat} {s s1 : SessState}
    {cur : Option Cursor} {data : SearchResponse}
    (hps : 0 < s1.pageSize)
    (hre : resolveEntry g (max 1 (c - 2)) s = .ok (s1, cur))
    (hbk : g (s1.pageSize * 5) cur = .ok data)
    (hne : data.results ≠ []) :
    (prefetchWindow g c s).pageCache (max 1 (c - 2)) =
      some (sliceAt s1.pageSize data.results 0) := by
  have hfields := prefetchWindow_ok_fields hre hbk
  rw [hfields.2.2.2]
  have hlen : 0 < data.results.length := List.length_pos.2 hne
  have h5 := prefetchFill_at s1.pageSize (max 1 (c - 2)) data.results
    (pagesToShow data.results.length s1.pageSize) 0
    { s1 with prefetching := true } 0
    (by have := pagesToShow_pos data.results.length s1.pageSize; omega)
    (fun jj hjj => by
      have hjj0 : jj = 0 := by omega
      subst hjj0
      apply sliceAt_ne_nil hps
      simpa using hlen)
  simpa using h5

/-- Witness for C7 (amended): a response consisting of a single item
that does not strictly follow the supplied page-1 cursor is cached
verbatim as page 2. -/
theorem claimC7_amended_witness :
    strictlyFollows ⟨10, "a"⟩ badItem = false ∧
    (prefetchWindow gwBad 4
      { initState "q" 5 with
          pageEndCursor := fun k => if k = 1 then some ⟨10, "a"⟩ else none }).pageCache 2 =
      some [badItem] := by
  refine ⟨by decide, ?_⟩
  have h := claimC7_amended (g := gwBad) (c := 4)
    (s := { initState "q" 5 with
        pageEndCursor := fun k => if k = 1 then some ⟨10, "a"⟩ else none })
    (by decide) rfl rfl (by decide)
  simpa using h

/-- C8 counterexample: with a full window [1,5] over a 30-item stream,
`canGoNext` is enabled; navigating to the uncached page 6 succeeds via
the miss fetch, but the follow-up window refill fails, leaving the
settled state with `currentPage = 6` outside the window [1,5] — not a
transient mid-fetch state. -/
theorem claimC8_counterexample :
    (runOps (initState "q" 5)
      [Op.search (mkGateway (stream 30)),
       Op.nav (gwFailAt (mkGateway (stream 30)) 25) 6]).currentPage = 6 ∧
    (runOps (initState "q" 5)
      [Op.search (mkGateway (stream 30)),
       Op.nav (gwFailAt (mkGateway (stream 30)) 25) 6]).windowStart = 1 ∧
    (runOps (initState "q" 5)
      [Op.search (mkGateway (stream 30)),
       Op.nav (gwFailAt (mkGateway (stream 30)) 25) 6]).windowEnd = 5 :=
  ⟨by decide, by decide, by decide⟩

/-- C8 (amended): `current_page` lies within the window after a refill
centred on it completes successfully with enough data — at least
`min 3 current_page` pages' worth of items; a failed or under-delivering
refill can leave `current_page` outside the window even in a settled
state. -/
theorem claimC8_amended {g : Gateway} {s s1 : SessState}
    {cur : Option Cursor} {data : SearchResponse}
    (hc : 1 ≤ s.currentPage)
    (hps : 0 < s1.pageSize)
    (hre : resolveEntry g (max 1 (s.currentPage - 2)) s = .ok (s1, cur))
    (hbk : g (s1.pageSize * 5) cur = .ok data)
    (hlen : min 3 s.currentPage * s1.pageSize ≤ data.results.length) :
    (prefetchWindow g s.currentPage s).windowStart ≤
        (prefetchWindow g s.currentPage s).currentPage ∧
    (prefetchWindow g s.currentPage s).currentPage ≤
        (prefetchWindow g s.currentPage s).windowEnd := by
  have hfields := prefetchWindow_ok_fields hre hbk
  have hm3 : min 3 s.currentPage ≤ ceilDiv data.results.length s1.pageSize := by
    by_contra hcon
    push_neg at hcon
    have h1 : ceilDiv data.results.length s1.pageSize ≤ min 3 s.currentPage - 1 := by
      omega
    have h2 := (ceilDiv_le hps _ _).1 h1
    have h3 : (min 3 s.currentPage - 1) * s1.pageSize <
        min 3 s.currentPage * s1.pageSize :=
      (Nat.mul_lt_mul_right hps).2 (by omega)
    omega
  have hmps : min 3 s.currentPage ≤ pagesToShow data.results.length s1.pageSize :=
    pagesToShow_ge hm3 (by omega)
  rw [hfields.1, hfields.2.1, hfields.2.2.1]
  have h5 := pagesToShow_pos data.results.length s1.pageSize
  constructor
  · omega
  · omega

/-- Witness for C8 (amended): at `currentPage = 6` with a cached page-3
cursor, a refill over a 40-item stream returns a full block and the
recomputed window [4,8] contains page 6. -/
theorem claimC8_amended_witness :
    (prefetchWindow (mkGateway (stream 40)) 6
        { initState "q" 5 with
            currentPage := 6,
            pageEndCursor := fun k => if k = 3 then some ⟨985, "14"⟩ else none }).windowStart ≤
      (prefetchWindow (mkGateway (stream 40)) 6
        { initState "q" 5 with
            currentPage := 6,
            pageEndCursor := fun k => if k = 3 then some ⟨985, "14"⟩ else none }).currentPage ∧
    (prefetchWindow (mkGateway (stream 40)) 6
        { initState "q" 5 with
            currentPage := 6,
            pageEndCursor := fun k => if k = 3 then some ⟨985, "14"⟩ else none }).currentPage ≤
      (prefetchWindow (mkGateway (stream 40)) 6
        { initState "q" 5 with
            currentPage := 6,
            pageEndCursor := fun k => if k = 3 then some ⟨985, "14"⟩ else none }).windowEnd :=
  claimC8_amended (g := mkGateway (stream 40))
    (s := { initState "q" 5 with
        currentPage := 6,
        pageEndCursor := fun k => if k = 3 then some ⟨985, "14"⟩ else none })
    (by decide) (by decide) rfl rfl (by decide)

/-- C9 counterexample: after a search whose background refill fails
(leaving only page 1 cached and the window at [1,1]), a navigation to
page 4 against a stream that has drifted to empty produces a refill
whose bulk fetch returns zero items; the engine sets the window to
[2,2] although page 2 was never cached — a gap inside the window,
contradicting the claim that density holds even for zero-item bulk
responses. -/
theorem claimC9_counterexample :
    (runOps (initState "q" 5)
      [Op.search (gwFailAt (mkGateway (stream 10)) 25),
       Op.nav gwEmpty 4]).windowStart = 2 ∧
    (runOps (initState "q" 5)
      [Op.search (gwFailAt (mkGateway (stream 10)) 25),
       Op.nav gwEmpty 4]).windowEnd = 2 ∧
    (runOps (initState "q" 5)
      [Op.search (gwFailAt (mkGateway (stream 10)) 25),
       Op.nav gwEmpty 4]).pageCache 2 = none :=
  ⟨by decide, by decide, by decide⟩

/-- C9 (amended): density holds for every window filled by a refill
whose bulk fetch returned at least one item: every page number between
the new `windowStart` and `windowEnd` is then cached; a zero-item bulk
response instead collapses the window to `[start, start]` without
caching anything, leaving a gap unless page `start` was already cached. -/
theorem claimC9_amended {g : Gateway} {c : Nat} {s s1 : SessState}
    {cur : Option Cursor} {data : SearchResponse}
    (hps : 0 < s1.pageSize)
    (hre : resolveEntry g (max 1 (c - 2)) s = .ok (s1, cur))
    (hbk : g (s1.pageSize * 5) cur = .ok data)
    (hne : data.results ≠ []) :
    ∀ q, (prefetchWindow g c s).windowStart ≤ q →
      q ≤ (prefetchWindow g c s).windowEnd →
      ((prefetchWindow g c s).pageCache q).isSome := by
  intro q hq1 hq2
  have hfields := prefetchWindow_ok_fields hre hbk
  rw [hfields.1] at hq1
  rw [hfields.2.1] at hq2
  rw [hfields.2.2.2]
  have hlen : 0 < data.results.length := List.length_pos.2 hne
  have hpib : 0 < ceilDiv data.results.length s1.pageSize :=
    (lt_ceilDiv hps data.results.length 0).2 (by simpa using hlen)
  have hmle : pagesToShow data.results.length s1.pageSize ≤
      ceilDiv data.results.length s1.pageSize := pagesToShow_le_pib (by omega)
  have hpos := pagesToShow_pos data.results.length s1.pageSize
  obtain ⟨j, rfl⟩ : ∃ j, q = max 1 (c - 2) + j := ⟨q - max 1 (c - 2), by omega⟩
  have hjlt : j < pagesToShow data.results.length s1.pageSize := by omega
  have hsl : ∀ jj, jj < pagesToShow data.results.length s1.pageSize →
      sliceAt s1.pageSize data.results (0 + jj) ≠ [] := by
    intro jj hjj
    apply sliceAt_ne_nil hps
    have hjj2 : jj < ceilDiv data.results.length s1.pageSize := by omega
    have hjj3 := (lt_ceilDiv hps data.results.length jj).1 hjj2
    simpa using hjj3
  have h5 := prefetchFill_sets s1.pageSize (max 1 (c - 2)) data.results
    (pagesToShow data.results.length s1.pageSize) 0
    { s1 with prefetching := true } j hjlt hsl
  simpa using h5

/-- Witness for C9 (amended): a refill over a 12-item stream at page
size 5 fills a dense window [1,3]; page 2 is cached. -/
theorem claimC9_amended_witness :
    ((prefetchWindow (mkGateway (stream 12)) 1 (initState "q" 5)).pageCache 2).isSome := by
  have h := claimC9_amended (g := mkGateway (stream 12)) (c := 1)
    (s := initState "q" 5) (by decide) rfl rfl (by decide)
  exact h 2 (by decide) (by decide)

/-- C6: a navigation to an uncached page `p ≥ 2` whose predecessor end
cursor is not cached performs the backfill procedure: it fetches
`(p-1) * pageSize` items from the start of the stream (null cursor),
slices them into pageSize-sized chunks populating the page cache and
end cursors for pages 1..p-1, then fetches exactly one page of size
`pageSize` from the page-(p-1) end cursor, caches it as page `p`, and
sets `currentPage := p` (stated on `goToPageCore`, the navigation as
observed at its completion, before the separate background refill). -/
theorem claimC6_backfill_navigation (g : Gateway) (p : Nat) (s : SessState)
    (data1 data2 : SearchResponse)
    (hp : 2 ≤ p)
    (hps : 0 < s.pageSize)
    (hguard : navRejected p s = false)
    (hmiss : s.pageCache p = none)
    (hnc : s.pageEndCursor (p - 1) = none)
    (hf1 : g ((p - 1) * s.pageSize) none = .ok data1)
    (hlen : data1.results.length = (p - 1) * s.pageSize)
    (hf2 : g s.pageSize
      (getEndCursorFromResults (sliceAt s.pageSize data1.results (p - 2))) = .ok data2) :
    (goToPageCore g p s).currentPage = p ∧
    (goToPageCore g p s).results = data2.results ∧
    (goToPageCore g p s).pageCache p = some data2.results ∧
    (goToPageCore g p s).pageEndCursor (p - 1) =
      getEndCursorFromResults (sliceAt s.pageSize data1.results (p - 2)) ∧
    (∀ k, 1 ≤ k → k ≤ p - 1 →
      ((goToPageCore g p s).pageCache k).isSome ∧
      ((goToPageCore g p s).pageEndCursor k).isSome) := by
  have hk : ceilDiv data1.results.length s.pageSize = p - 1 := by
    rw [hlen]
    exact ceilDiv_mul hps (p - 1)
  have hslices : ∀ jj, jj < p - 1 → sliceAt s.pageSize data1.results (0 + jj) ≠ [] := by
    intro jj hjj
    apply sliceAt_ne_nil hps
    rw [hlen]
    have hm : jj * s.pageSize < (p - 1) * s.pageSize :=
      (Nat.mul_lt_mul_right hps).2 (by omega)
    simpa using hm
  have hat : (backfillFill s.pageSize data1.results 0 (p - 1)
      { s with loading := true }).pageEndCursor (p - 1) =
      getEndCursorFromResults (sliceAt s.pageSize data1.results (p - 2)) := by
    have h0 := backfillFill_cursor_at s.pageSize data1.results (p - 1) 0
      { s with loading := true } (p - 2) (by omega)
      (fun jj hjj => hslices jj (by omega))
      (by
        show ({ s with loading := true }).pageEndCursor (0 + (p - 2) + 1) = none
        have hi : 0 + (p - 2) + 1 = p - 1 := by omega
        rw [hi]
        exact hnc)
    have hi : 0 + (p - 2) + 1 = p - 1 := by omega
    have hi2 : 0 + (p - 2) = p - 2 := by omega
    rw [hi, hi2] at h0
    exact h0
  obtain ⟨pcB, pecB, hsB⟩ := backfillFill_shape s.pageSize data1.results (p - 1) 0
    { s with loading := true }
  have hens : ensureCursorForPageEnd g (p - 1) { s with loading := true } = .ok
      (backfillFill s.pageSize data1.results 0 (p - 1) { s with loading := true },
       getEndCursorFromResults (sliceAt s.pageSize data1.results (p - 2))) := by
    have h1 := @ensure_backfill_spec g (p - 1) { s with loading := true } data1
      (by omega) hnc hf1
    rw [show ({ s with loading := true } : SessState).pageSize = s.pageSize from rfl] at h1
    rw [hk] at h1
    rw [h1, hat]
  have hbody : goToPageCore g p s =
      { backfillFill s.pageSize data1.results 0 (p - 1) { s with loading := true } with
          pageCache := updPage (backfillFill s.pageSize data1.results 0 (p - 1)
            { s with loading := true }).pageCache p data2.results,
          pageEndCursor := updCursor (backfillFill s.pageSize data1.results 0 (p - 1)
            { s with loading := true }).pageEndCursor p
            (getEndCursorFromResults data2.results),
          currentPage := p,
          results := data2.results,
          loading := false } := by
    unfold goToPageCore
    rw [hguard]
    simp only [Bool.false_eq_true, if_false]
    unfold goToPageBody
    rw [hmiss]
    dsimp only
    rw [if_neg (by omega : ¬ p = 1)]
    rw [hens]
    dsimp only
    have hpsB : (backfillFill s.pageSize data1.results 0 (p - 1)
        { s with loading := true }).pageSize = s.pageSize := by
      rw [hsB]
    rw [hpsB, hf2]
  rw [hbody]
  refine ⟨rfl, rfl, ?_, ?_, ?_⟩
  · exact updPage_eq _ _ _
  · show updCursor (backfillFill s.pageSize data1.results 0 (p - 1)
        { s with loading := true }).pageEndCursor p
        (getEndCursorFromResults data2.results) (p - 1) =
      getEndCursorFromResults (sliceAt s.pageSize data1.results (p - 2))
    rw [updCursor_ne _ _ (by omega : p - 1 ≠ p)]
    exact hat
  · intro k hk1 hk2
    have hsets := backfillFill_sets s.pageSize data1.results (p - 1) 0
      { s with loading := true } (k - 1) (by omega)
      (fun jj hjj => hslices jj (by omega))
    have hi : 0 + (k - 1) + 1 = k := by omega
    rw [hi] at hsets
    constructor
    · show (updPage (backfillFill s.pageSize data1.results 0 (p - 1)
          { s with loading := true }).pageCache p data2.results k).isSome
      rw [updPage_ne _ _ (by omega : k ≠ p)]
      exact hsets.1
    · show (updCursor (backfillFill s.pageSize data1.results 0 (p - 1)
          { s with loading := true }).pageEndCursor p
          (getEndCursorFromResults data2.results) k).isSome
      rw [updCursor_ne _ _ (by omega : k ≠ p)]
      exact hsets.2

/-- Witness for C6: a direct jump from a fresh state to page 3 over a
20-item stream backfills pages 1 and 2, derives the page-2 cursor, and
lands on page 3. -/
theorem claimC6_backfill_navigation_witness :
    (goToPageCore (mkGateway (stream 20)) 3 (initState "q" 5)).currentPage = 3 ∧
    ((goToPageCore (mkGateway (stream 20)) 3 (initState "q" 5)).pageCache 2).isSome ∧
    ((goToPageCore (mkGateway (stream 20)) 3 (initState "q" 5)).pageEndCursor 2).isSome := by
  have h := claimC6_backfill_navigation (mkGateway (stream 20)) 3 (initState "q" 5)
    ⟨20, 0, (stream 20).take 10⟩ ⟨20, 0, ((stream 20).drop 10).take 5⟩
    (by omega) (by decide) (by decide) (by decide) (by decide)
    rfl (by decide) rfl
  exact ⟨h.1, (h.2.2.2.2 2 (by omega) (by omega)).1, (h.2.2.2.2 2 (by omega) (by omega)).2⟩
